import Mathlib

/-!
Verification development for the PyGsiElev repository.

The two source modules, `standard_meshcode.py` (the mesh-code codec) and
`elevation.py` (the tile parser / elevation query engine), are shallowly
embedded here.  Python floats are modelled as exact rationals (the codec is
pure decimal subdivision arithmetic), mesh codes and text lines as `List
Char`, mutable object state as an explicit record threaded through the
functions, and raised exceptions as `Except` errors paired with the state
the object holds when the exception propagates.
-/

namespace PyGsiElev

/-- Value of a decimal digit character, as Python gets it when converting a
digit substring with int or float. -/
def digitVal (c : Char) : ℕ := c.toNat - 48

/-- Numeric value of an all-digit string. -/
def digitsToNat (l : List Char) : ℕ := l.foldl (fun a c => 10 * a + digitVal c) 0

/-- The re.sub removing every non-digit character, performed at the top of
every codec function. -/
def stripNonDigits (l : List Char) : List Char := l.filter Char.isDigit

/-- An extent (lon0, lat0, lon1, lat1) as returned by the extent
functions of standard_meshcode.py. -/
structure Extent where
  lon0 : ℚ
  lat0 : ℚ
  lon1 : ℚ
  lat1 : ℚ
deriving DecidableEq

/-- Digit value at position i of a code (only used under a length guard, so
the default is never reached). -/
def dAt (l : List Char) (i : ℕ) : ℚ := (digitVal (l.getD i '0') : ℚ)

/-- get_level1_extent of standard_meshcode.py; a raised ValueError is
modelled as none. -/
def get_level1_extent (code0 : List Char) : Option Extent :=
  let code := stripNonDigits code0
  if code.length = 4 then
    let lat0 : ℚ := (digitsToNat (code.take 2) : ℚ) / 1.5
    let lon0 : ℚ := (digitsToNat ((code.drop 2).take 2) : ℚ) + 100
    some ⟨lon0, lat0, lon0 + 1, lat0 + 2 / 3⟩
  else none

/-- get_level2_extent of standard_meshcode.py. -/
def get_level2_extent (code0 : List Char) : Option Extent :=
  let code := stripNonDigits code0
  if code.length = 6 then
    let lat0 : ℚ := (digitsToNat (code.take 2) : ℚ) / 1.5 + dAt code 4 / 12
    let lon0 : ℚ := (digitsToNat ((code.drop 2).take 2) : ℚ) + 100 + dAt code 5 / 8
    some ⟨lon0, lat0, lon0 + 1 / 8, lat0 + 1 / 12⟩
  else none

/-- get_level3_extent of standard_meshcode.py. -/
def get_level3_extent (code0 : List Char) : Option Extent :=
  let code := stripNonDigits code0
  if code.length = 8 then
    let lat0 : ℚ := (digitsToNat (code.take 2) : ℚ) / 1.5 + dAt code 4 / 12 + dAt code 6 / 120
    let lon0 : ℚ := (digitsToNat ((code.drop 2).take 2) : ℚ) + 100 + dAt code 5 / 8 + dAt code 7 / 80
    some ⟨lon0, lat0, lon0 + 1 / 80, lat0 + 1 / 120⟩
  else none

/-- get_level4_extent of standard_meshcode.py. -/
def get_level4_extent (code0 : List Char) : Option Extent :=
  let code := stripNonDigits code0
  if code.length = 9 ∧ code.getD 8 '0' ∈ ['1', '2', '3', '4'] then
    let lat0 : ℚ := (digitsToNat (code.take 2) : ℚ) / 1.5 + dAt code 4 / 12 + dAt code 6 / 120
      + (1 / 240) * (if code.getD 8 '0' ∈ ['3', '4'] then 1 else 0)
    let lon0 : ℚ := (digitsToNat ((code.drop 2).take 2) : ℚ) + 100 + dAt code 5 / 8 + dAt code 7 / 80
      + (1 / 160) * (if code.getD 8 '0' ∈ ['2', '4'] then 1 else 0)
    some ⟨lon0, lat0, lon0 + 1 / 160, lat0 + 1 / 240⟩
  else none

/-- get_level5_extent of standard_meshcode.py. -/
def get_level5_extent (code0 : List Char) : Option Extent :=
  let code := stripNonDigits code0
  if code.length = 10 ∧ code.getD 8 '0' ∈ ['1', '2', '3', '4']
      ∧ code.getD 9 '0' ∈ ['1', '2', '3', '4'] then
    let lat0 : ℚ := (digitsToNat (code.take 2) : ℚ) / 1.5 + dAt code 4 / 12 + dAt code 6 / 120
      + (1 / 240) * (if code.getD 8 '0' ∈ ['3', '4'] then 1 else 0)
      + (1 / 480) * (if code.getD 9 '0' ∈ ['3', '4'] then 1 else 0)
    let lon0 : ℚ := (digitsToNat ((code.drop 2).take 2) : ℚ) + 100 + dAt code 5 / 8 + dAt code 7 / 80
      + (1 / 160) * (if code.getD 8 '0' ∈ ['2', '4'] then 1 else 0)
      + (1 / 320) * (if code.getD 9 '0' ∈ ['2', '4'] then 1 else 0)
    some ⟨lon0, lat0, lon0 + 1 / 320, lat0 + 1 / 480⟩
  else none

/-- get_level6_extent of standard_meshcode.py. -/
def get_level6_extent (code0 : List Char) : Option Extent :=
  let code := stripNonDigits code0
  if code.length = 11 ∧ code.getD 8 '0' ∈ ['1', '2', '3', '4']
      ∧ code.getD 9 '0' ∈ ['1', '2', '3', '4'] ∧ code.getD 10 '0' ∈ ['1', '2', '3', '4'] then
    let lat0 : ℚ := (digitsToNat (code.take 2) : ℚ) / 1.5 + dAt code 4 / 12 + dAt code 6 / 120
      + (1 / 240) * (if code.getD 8 '0' ∈ ['3', '4'] then 1 else 0)
      + (1 / 480) * (if code.getD 9 '0' ∈ ['3', '4'] then 1 else 0)
      + (1 / 960) * (if code.getD 10 '0' ∈ ['3', '4'] then 1 else 0)
    let lon0 : ℚ := (digitsToNat ((code.drop 2).take 2) : ℚ) + 100 + dAt code 5 / 8 + dAt code 7 / 80
      + (1 / 160) * (if code.getD 8 '0' ∈ ['2', '4'] then 1 else 0)
      + (1 / 320) * (if code.getD 9 '0' ∈ ['2', '4'] then 1 else 0)
      + (1 / 640) * (if code.getD 10 '0' ∈ ['2', '4'] then 1 else 0)
    some ⟨lon0, lat0, lon0 + 1 / 640, lat0 + 1 / 960⟩
  else none

/-- get_2km_extent of standard_meshcode.py (integrated 2km mesh,
9 digits ending in 5). -/
def get_2km_extent (code0 : List Char) : Option Extent :=
  let code := stripNonDigits code0
  if code.length = 9 ∧ code.getD 8 '0' = '5' then
    let lat0 : ℚ := (digitsToNat (code.take 2) : ℚ) / 1.5 + dAt code 4 / 12 + dAt code 6 / 120
    let lon0 : ℚ := (digitsToNat ((code.drop 2).take 2) : ℚ) + 100 + dAt code 5 / 8 + dAt code 7 / 80
    some ⟨lon0, lat0, lon0 + 1 / 40, lat0 + 1 / 60⟩
  else none

/-- get_5km_extent of standard_meshcode.py (integrated 5km mesh,
7 digits). -/
def get_5km_extent (code0 : List Char) : Option Extent :=
  let code := stripNonDigits code0
  if code.length = 7 ∧ code.getD 6 '0' ∈ ['1', '2', '3', '4'] then
    let lat0 : ℚ := (digitsToNat (code.take 2) : ℚ) / 1.5 + dAt code 4 / 12
      + (if code.getD 6 '0' ∈ ['3', '4'] then (1 : ℚ) else 0) / 24
    let lon0 : ℚ := (digitsToNat ((code.drop 2).take 2) : ℚ) + 100 + dAt code 5 / 8
      + (if code.getD 6 '0' ∈ ['2', '4'] then (1 : ℚ) else 0) / 16
    some ⟨lon0, lat0, lon0 + 1 / 16, lat0 + 1 / 24⟩
  else none

/-- get_extent of standard_meshcode.py: strips non-digits, then dispatches
on the remaining length (note the source sends length 7 to get_2km_extent
and length 9 ending in "5" to get_5km_extent). -/
def get_extent (code0 : List Char) : Option Extent :=
  let code := stripNonDigits code0
  if code.length = 4 then get_level1_extent code
  else if code.length = 6 then get_level2_extent code
  else if code.length = 7 then get_2km_extent code
  else if code.length = 8 then get_level3_extent code
  else if code.length = 9 then
    if code.getD 8 '0' = '5' then get_5km_extent code
    else if code.getD 8 '0' ∈ ['1', '2', '3', '4'] then get_level4_extent code
    else none
  else if code.length = 10 then get_level5_extent code
  else if code.length = 11 then get_level6_extent code
  else none

/-- Python int() applied to a rational: truncation toward zero. -/
def pyInt (q : ℚ) : ℤ := if 0 ≤ q then ⌊q⌋ else -⌊-q⌋

/-- Decimal digit characters of a natural number, most significant first;
the fuel argument only bounds the recursion. -/
def decDigitsAux : ℕ → ℕ → List Char → List Char
  | 0, _, acc => acc
  | fuel + 1, n, acc =>
    if n < 10 then Nat.digitChar n :: acc
    else decDigitsAux fuel (n / 10) (Nat.digitChar (n % 10) :: acc)

/-- Decimal digit characters of a natural number. -/
def decDigits (n : ℕ) : List Char := decDigitsAux (n + 1) n []

/-- Python zero-padded decimal formatting of an integer to width w, the
sign counted inside the width, as in the format string of
get_level6_meshcode. -/
def pyFmt (w : ℕ) (i : ℤ) : List Char :=
  if i < 0 then '-' :: (List.replicate (w - 1 - (decDigits (-i).toNat).length) '0' ++ decDigits (-i).toNat)
  else List.replicate (w - (decDigits i.toNat).length) '0' ++ decDigits i.toNat

/-- One digit/remainder extraction step of get_level6_meshcode: the pair
(int(q), q - int(q)) taken by each "dN = int(v); modv = v - dN" statement
pair of the source. -/
def floorRem (q : ℚ) : ℤ × ℚ := (pyInt q, q - (pyInt q : ℚ))

/-- One quadrant step of get_level6_meshcode (the statement pair
"dN = 1 + 2*int(y >= 1.0) + int(x >= 1.0);
modx, mody = x - float(dN in (2, 4)), y - float(dN in (3, 4))"):
the digit and the two remainders. -/
def quadAdjust (x y : ℚ) : ℤ × ℚ × ℚ :=
  let d : ℤ := 1 + 2 * (if 1 ≤ y then 1 else 0) + (if 1 ≤ x then 1 else 0)
  (d, x - (if d = 2 ∨ d = 4 then (1 : ℚ) else 0), y - (if d = 3 ∨ d = 4 then (1 : ℚ) else 0))

/-- get_level6_meshcode of standard_meshcode.py: the full 11-digit code of
a point, by repeated fractional subdivision (8×8, then 10×10, then three
2×2 quadrant splits). -/
def get_level6_meshcode (lon lat : ℚ) : List Char :=
  let (d0, mody) := floorRem (lat * 1.5)
  let (d1, modx) := floorRem (lon - 100)
  let (d2, mody2) := floorRem (mody * 8)
  let (d3, modx2) := floorRem (modx * 8)
  let (d4, mody3) := floorRem (mody2 * 10)
  let (d5, modx3) := floorRem (modx2 * 10)
  let (d6, modx4, mody4) := quadAdjust (modx3 * 2) (mody3 * 2)
  let (d7, modx5, mody5) := quadAdjust (modx4 * 2) (mody4 * 2)
  let (d8, _, _) := quadAdjust (modx5 * 2) (mody5 * 2)
  pyFmt 2 d0 ++ pyFmt 2 d1 ++ pyFmt 1 d2 ++ pyFmt 1 d3 ++ pyFmt 1 d4 ++
    pyFmt 1 d5 ++ pyFmt 1 d6 ++ pyFmt 1 d7 ++ pyFmt 1 d8

/-- get_level1_meshcode: first 4 characters of the level-6 code. -/
def get_level1_meshcode (lon lat : ℚ) : List Char := (get_level6_meshcode lon lat).take 4

/-- get_level2_meshcode: first 6 characters of the level-6 code. -/
def get_level2_meshcode (lon lat : ℚ) : List Char := (get_level6_meshcode lon lat).take 6

/-- get_level3_meshcode: first 8 characters of the level-6 code. -/
def get_level3_meshcode (lon lat : ℚ) : List Char := (get_level6_meshcode lon lat).take 8

/-- get_level4_meshcode: first 9 characters of the level-6 code. -/
def get_level4_meshcode (lon lat : ℚ) : List Char := (get_level6_meshcode lon lat).take 9

/-- get_level5_meshcode: first 10 characters of the level-6 code. -/
def get_level5_meshcode (lon lat : ℚ) : List Char := (get_level6_meshcode lon lat).take 10

/-- get_2km_meshcode of standard_meshcode.py: level-6 code with the two
level-3 quadrant digits rounded down to even, then a trailing "5". -/
def get_2km_meshcode (lon lat : ℚ) : List Char :=
  let code := get_level6_meshcode lon lat
  let c6 := code.getD 6 ' '
  let c7 := code.getD 7 ' '
  let e6 := if c6 ∈ ['1', '3', '5', '7', '9'] then Char.ofNat (c6.toNat - 1) else c6
  let e7 := if c7 ∈ ['1', '3', '5', '7', '9'] then Char.ofNat (c7.toNat - 1) else c7
  code.take 6 ++ [e6, e7, '5']

/-- get_5km_meshcode of standard_meshcode.py: level-2 prefix plus one
quadrant digit computed from the two level-3 digits. -/
def get_5km_meshcode (lon lat : ℚ) : List Char :=
  let code := get_level6_meshcode lon lat
  let d6 : ℤ := 1 + 2 * (if '5' ≤ code.getD 6 ' ' then 1 else 0)
    + (if '5' ≤ code.getD 7 ' ' then 1 else 0)
  code.take 6 ++ pyFmt 1 d6

/-- Half-open containment of a point in an extent (the rule asserted by
the source self-tests). -/
def containsPt (e : Extent) (lon lat : ℚ) : Prop :=
  e.lon0 ≤ lon ∧ lon < e.lon1 ∧ e.lat0 ≤ lat ∧ lat < e.lat1

/-! ### elevation.py: text matching

Lines of the tile stream are `List Char`.  The class-level re patterns of
ElevationExtractor are embedded as direct matchers with Python re.search
semantics (leftmost position, greedy with backtracking).  For every
pattern except re_startpoint the sub-expressions have disjoint follow
sets, so greedy maximal munch is exact; re_startpoint's first group
`([\d\.].+)` needs genuine backtracking, implemented below longest-first.
-/

/-- Character class [\d\.] used by the corner and start-point patterns. -/
def isDigitDot (c : Char) : Bool := c.isDigit || c = '.'

/-- Python \s (the whitespace the streams can contain). -/
def isSpaceCh (c : Char) : Bool := c = ' ' || c = '\t' || c = '\n' || c = '\r'

/-- Match a literal at the head of a line, returning the rest. -/
def dropLit : List Char → List Char → Option (List Char)
  | [], l => some l
  | _ :: _, [] => none
  | p :: ps, c :: cs => if c = p then dropLit ps cs else none

/-- Greedy one-or-more repetition of a character class (maximal munch),
returning the matched run and the rest. -/
def takeWhile1 (p : Char → Bool) (l : List Char) : Option (List Char × List Char) :=
  match l.takeWhile p with
  | [] => none
  | t => some (t, l.dropWhile p)

/-- Try a matcher at every position of the line, leftmost first
(re.search). -/
def searchL {α : Type} (m : List Char → Option α) : List Char → Option α
  | [] => m []
  | l@(_ :: cs) => (m l).orElse fun _ => searchL m cs

/-- Anchored match for re_mesh at one position. -/
def matchMeshAt (l : List Char) : Option (List Char) := do
  let r ← dropLit "<mesh>".data l
  let (g, r2) ← takeWhile1 Char.isDigit r
  let _ ← dropLit "</mesh>".data r2
  pure g

/-- re_mesh searched over a line. -/
def searchMesh (ln : List Char) : Option (List Char) := searchL matchMeshAt ln

/-- Anchored match at one position for the shared shape
lit1 (cls1+) \s+ (cls2+) lit2 of re_lower, re_upper and re_high. -/
def matchPairAt (lit1 : List Char) (p1 p2 : Char → Bool) (lit2 : List Char)
    (l : List Char) : Option (List Char × List Char) := do
  let r ← dropLit lit1 l
  let (g1, r2) ← takeWhile1 p1 r
  let (_, r3) ← takeWhile1 isSpaceCh r2
  let (g2, r4) ← takeWhile1 p2 r3
  let _ ← dropLit lit2 r4
  pure (g1, g2)

/-- re_lower searched over a line. -/
def searchLower (ln : List Char) : Option (List Char × List Char) :=
  searchL (matchPairAt "<gml:lowerCorner>".data isDigitDot isDigitDot "</gml:lowerCorner>".data) ln

/-- re_upper searched over a line. -/
def searchUpper (ln : List Char) : Option (List Char × List Char) :=
  searchL (matchPairAt "<gml:upperCorner>".data isDigitDot isDigitDot "</gml:upperCorner>".data) ln

/-- re_high searched over a line. -/
def searchHigh (ln : List Char) : Option (List Char × List Char) :=
  searchL (matchPairAt "<gml:high>".data Char.isDigit Char.isDigit "</gml:high>".data) ln

/-- Substring search for a literal pattern (re_data_start, re_data_end). -/
def containsLit (lit ln : List Char) : Bool := (searchL (dropLit lit) ln).isSome

/-- re_data_start searched over a line. -/
def searchDataStart (ln : List Char) : Option Unit :=
  if containsLit "<gml:tupleList>".data ln then some () else none

/-- re_data_end searched over a line. -/
def searchDataEnd (ln : List Char) : Bool := containsLit "</gml:tupleList>".data ln

/-- Rest of re_startpoint after the first group: \s+ ([\d\.]+) then the
closing literal; returns the second group. -/
def spRest (r : List Char) : Option (List Char) := do
  let (_, r2) ← takeWhile1 isSpaceCh r
  let (g2, r3) ← takeWhile1 isDigitDot r2
  let _ ← dropLit "</gml:startPoint>".data r3
  pure g2

/-- Backtracking for re_startpoint's greedy `.+`: the first group takes
c plus k more characters, longest k first. -/
def spLoop (c : Char) (cs : List Char) : ℕ → Option (List Char × List Char)
  | 0 => none
  | k + 1 =>
    match spRest (cs.drop (k + 1)) with
    | some g2 => some (c :: cs.take (k + 1), g2)
    | none => spLoop c cs k

/-- Anchored match for re_startpoint at one position: the literal, then
group 1 = `[\d\.].+` (one class character plus at least one arbitrary
character), then spRest. -/
def matchStartAt (l : List Char) : Option (List Char × List Char) :=
  match dropLit "<gml:startPoint>".data l with
  | none => none
  | some [] => none
  | some (c :: cs) => if isDigitDot c then spLoop c cs cs.length else none

/-- re_startpoint searched over a line. -/
def searchStartpoint (ln : List Char) : Option (List Char × List Char) :=
  searchL matchStartAt ln

/-! ### elevation.py: parsing and state -/

/-- Python str.strip() restricted to the whitespace class above. -/
def pyStrip (l : List Char) : List Char :=
  ((l.dropWhile isSpaceCh).reverse.dropWhile isSpaceCh).reverse

/-- Python str.split(',') on a character list: always at least one
piece. -/
def splitOnComma : List Char → List (List Char)
  | [] => [[]]
  | c :: cs =>
    let r := splitOnComma cs
    if c = ',' then [] :: r
    else
      match r with
      | h :: t => (c :: h) :: t
      | [] => [[c]]

/-- Python float() on a captured string: at most one dot, at least one
digit, nothing but digits and dots; None models a raised ValueError. -/
def pyFloatParse (s0 : List Char) : Option ℚ :=
  let s := pyStrip s0
  if s.isEmpty then none
  else if s.all isDigitDot && s.count '.' ≤ 1 && s.any Char.isDigit then
    let ip := s.takeWhile (fun c => c ≠ '.')
    let fp := (s.dropWhile (fun c => c ≠ '.')).drop 1
    some ((digitsToNat ip : ℚ) + (digitsToNat fp : ℚ) / ((10 ^ fp.length : ℕ) : ℚ))
  else none

/-- Python int() on a captured string; None models a raised ValueError. -/
def pyIntParse (s0 : List Char) : Option ℤ :=
  let s := pyStrip s0
  if !s.isEmpty && s.all Char.isDigit then some (digitsToNat s : ℤ) else none

/-- One parsed sample: (value, locationTypeCode); a None value models
math.nan. -/
structure Sample where
  value : Option ℚ
  loctype : List Char
deriving DecidableEq

/-- The mutable fields of an ElevationExtractor instance. -/
structure EState where
  mesh : Option (List Char)
  start_pos : ℤ
  data : Option (List Sample)
  extent : Option (ℚ × ℚ × ℚ × ℚ)
  gridsize : Option (ℕ × ℕ)
deriving DecidableEq

/-- The state produced by ElevationExtractor.clear. -/
def clearState : EState := ⟨none, 0, none, none, none⟩

/-- The Python exceptions read_xml_file and get_elevation can raise. -/
inductive PyError where
  | dataNotAvailable (level2code : List Char)
  | unboundLocal
  | valueError
  | indexError
  | typeError
  | zeroDivision
deriving DecidableEq

/-- The filesystem collaborator (glob over the data directory and the zip
member listing), abstracted exactly at the boundary the source delegates
to it: whether some archive matches the level-2 pattern, and the line
stream of the first member matching the level-3 pattern (none when no
member matches). -/
structure Env where
  hasArchive : List Char → Bool
  entry : List Char → Option (List (List Char))

/-- The hyphenated level-2 code built at the top of read_xml_file. -/
def levelTwoCode (mc : List Char) : List Char :=
  mc.take 4 ++ '-' :: (mc.drop 4).take 2

/-- The hyphenated level-3 code built in read_xml_file. -/
def levelThreeCode (mc : List Char) : List Char :=
  levelTwoCode mc ++ '-' :: (mc.drop 6).take 2

/-- A scan loop "for ln in f: if pattern matches: break": consumes lines
until the matcher fires, returning the match result and the lines left in
the stream. -/
def scanFor {α : Type} (f : List Char → Option α) : List (List Char) → Option α × List (List Char)
  | [] => (none, [])
  | ln :: rest =>
    match f ln with
    | some v => (some v, rest)
    | none => scanFor f rest

/-- The float conversions performed on a matched corner line,
(float(m.group(2)), float(m.group(1))). -/
def floatPair : Option (List Char × List Char) → Except PyError (Option (ℚ × ℚ))
  | none => .ok none
  | some (g1, g2) =>
    match pyFloatParse g2, pyFloatParse g1 with
    | some a, some b => .ok (some (a, b))
    | _, _ => .error .valueError

/-- One line of the tuple list: strip, split on commas, take
(vars[0], float(vars[1])), map raw values below -9000 to nan. -/
def parseSampleLine (ln : List Char) : Except PyError Sample :=
  match splitOnComma (pyStrip ln) with
  | p0 :: p1 :: _ =>
    match pyFloatParse p1 with
    | some v => .ok ⟨if v < -9000 then none else some v, p0⟩
    | none => .error .valueError
  | _ => .error .indexError

/-- The data loop of read_xml_file: consume lines until re_data_end fires
(or the stream ends, which is not an error), collecting samples in
order. -/
def readData : List (List Char) → List Sample → List Sample × Except PyError Unit × List (List Char)
  | [], acc => (acc, .ok (), [])
  | ln :: rest, acc =>
    if searchDataEnd ln then (acc, .ok (), rest)
    else
      match parseSampleLine ln with
      | .ok s => readData rest (acc ++ [s])
      | .error e => (acc, .error e, rest)

/-- The int conversions on a matched start-point line; (0, 0) when the
marker never matched. -/
def startXY : Option (List Char × List Char) → Except PyError (ℤ × ℤ)
  | none => .ok (0, 0)
  | some (g1, g2) =>
    match pyIntParse g1, pyIntParse g2 with
    | some a, some b => .ok (a, b)
    | _, _ => .error .valueError

/-- Tail of the stream parse from the grid-size scan on: grid high, data
start, tuple list, start point, then the final assignments
self.start_pos and self.data (looking up the local xlen, unbound when the
grid-high marker never matched). -/
def parseTail (st2 : EState) (l : List (List Char)) : EState × Except PyError Unit :=
  let s4 := scanFor searchHigh l
  let st3 :=
    match s4.1 with
    | some (g1, g2) => { st2 with gridsize := some (digitsToNat g1 + 1, digitsToNat g2 + 1) }
    | none => st2
  let xlenOpt : Option ℕ :=
    match s4.1 with
    | some (g1, _) => some (digitsToNat g1 + 1)
    | none => none
  let s5 := scanFor searchDataStart s4.2
  match readData s5.2 [] with
  | (_, .error e, _) => (st3, .error e)
  | (data, .ok _, l6) =>
    let s6 := scanFor searchStartpoint l6
    match startXY s6.1 with
    | .error e => (st3, .error e)
    | .ok (sx, sy) =>
      match xlenOpt with
      | none => (st3, .error .unboundLocal)
      | some xlen => ({ st3 with start_pos := sy * (xlen : ℤ) + sx, data := some data }, .ok ())

/-- The in-order scanning part of read_xml_file over the member's line
stream, threading the instance fields as they are assigned; the returned
state is what the instance holds when the result (normal or exception)
propagates. -/
def parseBody (st : EState) (lines : List (List Char)) : EState × Except PyError Unit :=
  let s1 := scanFor searchMesh lines
  let st1 :=
    match s1.1 with
    | some v => { st with mesh := some v }
    | none => st
  let s2 := scanFor searchLower s1.2
  match floatPair s2.1 with
  | .error e => (st1, .error e)
  | .ok lowerOpt =>
    let s3 := scanFor searchUpper s2.2
    match floatPair s3.1 with
    | .error e => (st1, .error e)
    | .ok upperOpt =>
      match lowerOpt, upperOpt with
      | some lc, some uc =>
        parseTail { st1 with extent := some (lc.1, lc.2, uc.1, uc.2) } s3.2
      | _, _ => (st1, .error .unboundLocal)

/-- read_xml_file of elevation.py: archive lookup, member lookup (no
member clears the instance and returns), then the stream parse. -/
def read_xml_file (env : Env) (st : EState) (meshcode : List Char) : EState × Except PyError Unit :=
  let level2code := levelTwoCode meshcode
  if env.hasArchive level2code then
    match env.entry (levelThreeCode meshcode) with
    | none => (clearState, .ok ())
    | some lines => parseBody st lines
  else (st, .error (.dataNotAvailable level2code))

/-- The no-data label returned by get_elevation. -/
def noDataLabel : List Char := "データなし".data

/-- The reload test at the top of get_elevation: no resident extent, or
the point outside it under the half-open rule. -/
def needsReload (st : EState) (lon lat : ℚ) : Bool :=
  match st.extent with
  | none => true
  | some (x0, y0, x1, y1) =>
    decide (lon < x0) || decide (lat < y0) || decide (x1 ≤ lon) || decide (y1 ≤ lat)

/-- The resident-tile lookup of get_elevation (after any reload): grid
position arithmetic and the data indexing, with the no-data sentinel for
out-of-range flat indices. -/
def lookupResident (st : EState) (lon lat : ℚ) : EState × Except PyError (Option ℚ × List Char) :=
  match st.mesh with
  | none => (st, .ok (none, noDataLabel))
  | some _ =>
    match st.gridsize, st.extent, st.data with
    | some (gx, _gy), some (x0, y0, x1, y1), some data =>
      if x1 - x0 = 0 ∨ y1 - y0 = 0 then (st, .error .zeroDivision)
      else
        let xpos := pyInt ((gx : ℚ) * (lon - x0) / (x1 - x0))
        let ypos := pyInt ((_gy : ℚ) * (1 - (lat - y0) / (y1 - y0)))
        let pos := ypos * (gx : ℤ) + xpos - st.start_pos
        if pos < 0 ∨ (data.length : ℤ) ≤ pos then (st, .ok (none, noDataLabel))
        else
          let s := data.getD pos.toNat ⟨none, []⟩
          (st, .ok (s.value, s.loctype))
    | _, _, _ => (st, .error .typeError)

/-- get_elevation of elevation.py. -/
def get_elevation (env : Env) (st : EState) (lon lat : ℚ) :
    EState × Except PyError (Option ℚ × List Char) :=
  if needsReload st lon lat then
    match read_xml_file env st (get_level3_meshcode lon lat) with
    | (st', .ok _) => lookupResident st' lon lat
    | (st', .error e) => (st', .error e)
  else lookupResident st lon lat

/-- A rational in the half-open unit interval (the range of every
fractional remainder in the codec). -/
def unitIv (r : ℚ) : Prop := 0 ≤ r ∧ r < 1

/-- An environment with no archive for any region. -/
def envNoArchive : Env := ⟨fun _ => false, fun _ => none⟩

/-- An environment whose archives exist but contain no matching member. -/
def envNoEntry : Env := ⟨fun _ => true, fun _ => none⟩

/-- An environment whose only member stream carries just a mesh-id line
and then ends. -/
def envMeshOnly : Env := ⟨fun _ => true, fun _ => some ["<mesh>53394536</mesh>".data]⟩

/-- A resident-tile state (a previously loaded tile). -/
def stResident : EState :=
  ⟨some "11112222".data, 7, some [⟨some 1, "1".data⟩], some (130, 30, 131, 31), some (2, 2)⟩

/-- A stream carrying mesh id, corners and grid size but neither the
tuple-list markers nor a start point. -/
def linesNoData : List (List Char) :=
  ["<mesh>53394536</mesh>".data,
   "<gml:lowerCorner>35.0 139.0</gml:lowerCorner>".data,
   "<gml:upperCorner>35.1 139.1</gml:upperCorner>".data,
   "<gml:high>5 7</gml:high>".data]

/-- A complete stream (empty tuple list) whose start-point marker carries
the single-digit x coordinate 5 and the two-digit y coordinate 10, on a
grid of 3 columns. -/
def linesSingleDigitStart : List (List Char) :=
  ["<mesh>53394536</mesh>".data,
   "<gml:lowerCorner>35.0 139.0</gml:lowerCorner>".data,
   "<gml:upperCorner>35.1 139.1</gml:upperCorner>".data,
   "<gml:high>2 3</gml:high>".data,
   "<gml:tupleList>".data,
   "</gml:tupleList>".data,
   "<gml:startPoint>5 10</gml:startPoint>".data]

/-! ### Arithmetic and formatting lemmas for the codec -/

theorem pyInt_add_unit (n : ℕ) (r : ℚ) (h0 : 0 ≤ r) (h1 : r < 1) :
    pyInt ((n : ℚ) + r) = (n : ℤ) := by
  rw [pyInt, if_pos (by positivity)]
  exact Int.floor_eq_iff.mpr ⟨by push_cast; linarith, by push_cast; linarith⟩

theorem floorRem_eq (q : ℚ) (n : ℕ) (r : ℚ) (h : q = (n : ℚ) + r)
    (h0 : 0 ≤ r) (h1 : r < 1) : floorRem q = ((n : ℤ), r) := by
  subst h
  simp only [floorRem, pyInt_add_unit n r h0 h1, Prod.mk.injEq, true_and]
  push_cast; ring

theorem quadAdjust_eq (x y : ℚ) (bx b2 : ℕ) (rx ry : ℚ)
    (hbx : bx ≤ 1) (hby : b2 ≤ 1)
    (hx : x = (bx : ℚ) + rx) (hy : y = (b2 : ℚ) + ry)
    (h0x : 0 ≤ rx) (h1x : rx < 1) (h0y : 0 ≤ ry) (h1y : ry < 1) :
    quadAdjust x y = (((1 + 2 * b2 + bx : ℕ) : ℤ), rx, ry) := by
  subst hx; subst hy
  rcases Nat.le_one_iff_eq_zero_or_eq_one.mp hbx with hx0 | hx1
  · rcases Nat.le_one_iff_eq_zero_or_eq_one.mp hby with hy0 | hy1
    · subst hx0; subst hy0
      simp only [quadAdjust,
        if_neg (show ¬(1 : ℚ) ≤ (0 : ℕ) + ry by push_cast; linarith),
        if_neg (show ¬(1 : ℚ) ≤ (0 : ℕ) + rx by push_cast; linarith)]
      norm_num
    · subst hx0; subst hy1
      simp only [quadAdjust,
        if_pos (show (1 : ℚ) ≤ (1 : ℕ) + ry by push_cast; linarith),
        if_neg (show ¬(1 : ℚ) ≤ (0 : ℕ) + rx by push_cast; linarith)]
      norm_num
  · rcases Nat.le_one_iff_eq_zero_or_eq_one.mp hby with hy0 | hy1
    · subst hx1; subst hy0
      simp only [quadAdjust,
        if_neg (show ¬(1 : ℚ) ≤ (0 : ℕ) + ry by push_cast; linarith),
        if_pos (show (1 : ℚ) ≤ (1 : ℕ) + rx by push_cast; linarith)]
      norm_num
    · subst hx1; subst hy1
      simp only [quadAdjust,
        if_pos (show (1 : ℚ) ≤ (1 : ℕ) + ry by push_cast; linarith),
        if_pos (show (1 : ℚ) ≤ (1 : ℕ) + rx by push_cast; linarith)]
      norm_num

theorem pyFmt_two : ∀ n : ℕ, n < 100 →
    pyFmt 2 (n : ℤ) = [Nat.digitChar (n / 10), Nat.digitChar (n % 10)] := by decide

theorem pyFmt_one : ∀ n : ℕ, n < 10 → pyFmt 1 (n : ℤ) = [Nat.digitChar n] := by decide

theorem digitChar_isDigit : ∀ n : ℕ, n < 10 → (Nat.digitChar n).isDigit = true := by decide

theorem digitVal_digitChar : ∀ n : ℕ, n < 10 → digitVal (Nat.digitChar n) = n := by decide

theorem digitsToNat_two : ∀ a : ℕ, a < 10 → ∀ b : ℕ, b < 10 →
    digitsToNat [Nat.digitChar a, Nat.digitChar b] = 10 * a + b := by decide

theorem quadChar_mem : ∀ b1 : ℕ, b1 ≤ 1 → ∀ b2 : ℕ, b2 ≤ 1 →
    Nat.digitChar (1 + 2 * b2 + b1) ∈ ['1', '2', '3', '4'] := by decide

theorem quadChar_ne5 : ∀ b1 : ℕ, b1 ≤ 1 → ∀ b2 : ℕ, b2 ≤ 1 →
    Nat.digitChar (1 + 2 * b2 + b1) ≠ '5' := by decide

theorem quadChar_mem34 : ∀ b1 : ℕ, b1 ≤ 1 → ∀ b2 : ℕ, b2 ≤ 1 →
    (Nat.digitChar (1 + 2 * b2 + b1) ∈ ['3', '4'] ↔ b2 = 1) := by decide

theorem quadChar_mem24 : ∀ b1 : ℕ, b1 ≤ 1 → ∀ b2 : ℕ, b2 ≤ 1 →
    (Nat.digitChar (1 + 2 * b2 + b1) ∈ ['2', '4'] ↔ b1 = 1) := by decide

theorem strip_digits (l : List Char) (h : ∀ c ∈ l, c.isDigit) : stripNonDigits l = l :=
  List.filter_eq_self.mpr h

theorem ifMemBit (P : Prop) [Decidable P] (b : ℕ) (hb : b ≤ 1) (hmem : P ↔ b = 1) :
    (if P then (1 : ℚ) else 0) = (b : ℚ) := by
  rcases Nat.le_one_iff_eq_zero_or_eq_one.mp hb with h | h <;> subst h
  · rw [if_neg (by simp [hmem])]; norm_num
  · rw [if_pos (hmem.mpr rfl)]; norm_num

theorem extent1_eval (a0 a1 a2 a3 : ℕ) (h0 : a0 < 10) (h1 : a1 < 10)
    (h2 : a2 < 10) (h3 : a3 < 10) :
    get_extent [Nat.digitChar a0, Nat.digitChar a1, Nat.digitChar a2, Nat.digitChar a3] =
      some ⟨((10 * a2 + a3 : ℕ) : ℚ) + 100, ((10 * a0 + a1 : ℕ) : ℚ) / 1.5,
            (((10 * a2 + a3 : ℕ) : ℚ) + 100) + 1,
            (((10 * a0 + a1 : ℕ) : ℚ) / 1.5) + 2 / 3⟩ := by
  have hs : stripNonDigits [Nat.digitChar a0, Nat.digitChar a1, Nat.digitChar a2,
      Nat.digitChar a3] = [Nat.digitChar a0, Nat.digitChar a1, Nat.digitChar a2,
      Nat.digitChar a3] := by
    refine strip_digits _ ?_
    intro c hc
    simp only [List.mem_cons, List.not_mem_nil, or_false] at hc
    rcases hc with h | h | h | h <;> subst h
    · exact digitChar_isDigit a0 h0
    · exact digitChar_isDigit a1 h1
    · exact digitChar_isDigit a2 h2
    · exact digitChar_isDigit a3 h3
  simp only [get_extent, get_level1_extent, hs]
  norm_num [List.take, List.drop, digitsToNat_two a0 h0 a1 h1, digitsToNat_two a2 h2 a3 h3]

theorem ifBitQ (b : ℕ) (hb : b ≤ 1) : (if b = 1 then (1 : ℚ) else 0) = (b : ℚ) := by
  rcases Nat.le_one_iff_eq_zero_or_eq_one.mp hb with h | h <;> subst h <;> norm_num

theorem get_extent_len4 (code : List Char) (hlen : code.length = 4)
    (hstrip : stripNonDigits code = code) : get_extent code = get_level1_extent code := by
  simp only [get_extent, hstrip, hlen]; norm_num

theorem get_extent_len6 (code : List Char) (hlen : code.length = 6)
    (hstrip : stripNonDigits code = code) : get_extent code = get_level2_extent code := by
  simp only [get_extent, hstrip, hlen]; norm_num

theorem get_extent_len8 (code : List Char) (hlen : code.length = 8)
    (hstrip : stripNonDigits code = code) : get_extent code = get_level3_extent code := by
  simp only [get_extent, hstrip, hlen]; norm_num

theorem get_extent_len9_quad (code : List Char) (hlen : code.length = 9)
    (hstrip : stripNonDigits code = code) (h5 : code.getD 8 '0' ≠ '5')
    (hmem : code.getD 8 '0' ∈ (['1', '2', '3', '4'] : List Char)) :
    get_extent code = get_level4_extent code := by
  simp only [get_extent, hstrip, hlen]
  norm_num
  rw [if_neg (by simpa using h5), if_pos (by simpa using hmem)]

theorem get_extent_len10 (code : List Char) (hlen : code.length = 10)
    (hstrip : stripNonDigits code = code) : get_extent code = get_level5_extent code := by
  simp only [get_extent, hstrip, hlen]; norm_num

theorem get_extent_len11 (code : List Char) (hlen : code.length = 11)
    (hstrip : stripNonDigits code = code) : get_extent code = get_level6_extent code := by
  simp only [get_extent, hstrip, hlen]; norm_num

theorem extent2_eval (a0 a1 a2 a3 a4 a5 : ℕ) (h0 : a0 < 10) (h1 : a1 < 10)
    (h2 : a2 < 10) (h3 : a3 < 10) (h4 : a4 < 10) (h5 : a5 < 10) :
    get_extent [Nat.digitChar a0, Nat.digitChar a1, Nat.digitChar a2, Nat.digitChar a3,
        Nat.digitChar a4, Nat.digitChar a5] =
      some ⟨((10 * a2 + a3 : ℕ) : ℚ) + 100 + (a5 : ℚ) / 8,
            ((10 * a0 + a1 : ℕ) : ℚ) / 1.5 + (a4 : ℚ) / 12,
            (((10 * a2 + a3 : ℕ) : ℚ) + 100 + (a5 : ℚ) / 8) + 1 / 8,
            (((10 * a0 + a1 : ℕ) : ℚ) / 1.5 + (a4 : ℚ) / 12) + 1 / 12⟩ := by
  have hs : stripNonDigits [Nat.digitChar a0, Nat.digitChar a1, Nat.digitChar a2,
      Nat.digitChar a3, Nat.digitChar a4, Nat.digitChar a5] = [Nat.digitChar a0,
      Nat.digitChar a1, Nat.digitChar a2, Nat.digitChar a3, Nat.digitChar a4,
      Nat.digitChar a5] := by
    refine strip_digits _ ?_
    simp only [List.forall_mem_cons]
    exact ⟨digitChar_isDigit a0 h0, digitChar_isDigit a1 h1, digitChar_isDigit a2 h2,
      digitChar_isDigit a3 h3, digitChar_isDigit a4 h4, digitChar_isDigit a5 h5, by simp⟩
  rw [get_extent_len6 _ (by simp) hs]
  simp only [get_level2_extent, hs]
  rw [if_pos (by simp)]
  norm_num [dAt, List.getD_cons_zero, List.getD_cons_succ, List.take_succ_cons,
    List.drop_succ_cons, digitsToNat_two a0 h0 a1 h1, digitsToNat_two a2 h2 a3 h3,
    digitVal_digitChar a4 h4, digitVal_digitChar a5 h5]

theorem extent3_eval (a0 a1 a2 a3 a4 a5 a6 a7 : ℕ) (h0 : a0 < 10) (h1 : a1 < 10)
    (h2 : a2 < 10) (h3 : a3 < 10) (h4 : a4 < 10) (h5 : a5 < 10) (h6 : a6 < 10)
    (h7 : a7 < 10) :
    get_extent [Nat.digitChar a0, Nat.digitChar a1, Nat.digitChar a2, Nat.digitChar a3,
        Nat.digitChar a4, Nat.digitChar a5, Nat.digitChar a6, Nat.digitChar a7] =
      some ⟨((10 * a2 + a3 : ℕ) : ℚ) + 100 + (a5 : ℚ) / 8 + (a7 : ℚ) / 80,
            ((10 * a0 + a1 : ℕ) : ℚ) / 1.5 + (a4 : ℚ) / 12 + (a6 : ℚ) / 120,
            (((10 * a2 + a3 : ℕ) : ℚ) + 100 + (a5 : ℚ) / 8 + (a7 : ℚ) / 80) + 1 / 80,
            (((10 * a0 + a1 : ℕ) : ℚ) / 1.5 + (a4 : ℚ) / 12 + (a6 : ℚ) / 120) + 1 / 120⟩ := by
  have hs : stripNonDigits [Nat.digitChar a0, Nat.digitChar a1, Nat.digitChar a2,
      Nat.digitChar a3, Nat.digitChar a4, Nat.digitChar a5, Nat.digitChar a6,
      Nat.digitChar a7] = [Nat.digitChar a0, Nat.digitChar a1, Nat.digitChar a2,
      Nat.digitChar a3, Nat.digitChar a4, Nat.digitChar a5, Nat.digitChar a6,
      Nat.digitChar a7] := by
    refine strip_digits _ ?_
    simp only [List.forall_mem_cons]
    exact ⟨digitChar_isDigit a0 h0, digitChar_isDigit a1 h1, digitChar_isDigit a2 h2,
      digitChar_isDigit a3 h3, digitChar_isDigit a4 h4, digitChar_isDigit a5 h5,
      digitChar_isDigit a6 h6, digitChar_isDigit a7 h7, by simp⟩
  rw [get_extent_len8 _ (by simp) hs]
  simp only [get_level3_extent, hs]
  rw [if_pos (by simp)]
  norm_num [dAt, List.getD_cons_zero, List.getD_cons_succ, List.take_succ_cons,
    List.drop_succ_cons, digitsToNat_two a0 h0 a1 h1, digitsToNat_two a2 h2 a3 h3,
    digitVal_digitChar a4 h4, digitVal_digitChar a5 h5, digitVal_digitChar a6 h6,
    digitVal_digitChar a7 h7]

theorem extent4_eval (a0 a1 a2 a3 a4 a5 a6 a7 q1x q1y : ℕ) (h0 : a0 < 10) (h1 : a1 < 10)
    (h2 : a2 < 10) (h3 : a3 < 10) (h4 : a4 < 10) (h5 : a5 < 10) (h6 : a6 < 10)
    (h7 : a7 < 10) (hq1x : q1x ≤ 1) (hq1y : q1y ≤ 1) :
    get_extent [Nat.digitChar a0, Nat.digitChar a1, Nat.digitChar a2, Nat.digitChar a3,
        Nat.digitChar a4, Nat.digitChar a5, Nat.digitChar a6, Nat.digitChar a7,
        Nat.digitChar (1 + 2 * q1y + q1x)] =
      some ⟨((10 * a2 + a3 : ℕ) : ℚ) + 100 + (a5 : ℚ) / 8 + (a7 : ℚ) / 80
              + (1 / 160) * (q1x : ℚ),
            ((10 * a0 + a1 : ℕ) : ℚ) / 1.5 + (a4 : ℚ) / 12 + (a6 : ℚ) / 120
              + (1 / 240) * (q1y : ℚ),
            (((10 * a2 + a3 : ℕ) : ℚ) + 100 + (a5 : ℚ) / 8 + (a7 : ℚ) / 80
              + (1 / 160) * (q1x : ℚ)) + 1 / 160,
            (((10 * a0 + a1 : ℕ) : ℚ) / 1.5 + (a4 : ℚ) / 12 + (a6 : ℚ) / 120
              + (1 / 240) * (q1y : ℚ)) + 1 / 240⟩ := by
  have hs : stripNonDigits [Nat.digitChar a0, Nat.digitChar a1, Nat.digitChar a2,
      Nat.digitChar a3, Nat.digitChar a4, Nat.digitChar a5, Nat.digitChar a6,
      Nat.digitChar a7, Nat.digitChar (1 + 2 * q1y + q1x)] = [Nat.digitChar a0,
      Nat.digitChar a1, Nat.digitChar a2, Nat.digitChar a3, Nat.digitChar a4,
      Nat.digitChar a5, Nat.digitChar a6, Nat.digitChar a7,
      Nat.digitChar (1 + 2 * q1y + q1x)] := by
    refine strip_digits _ ?_
    simp only [List.forall_mem_cons]
    exact ⟨digitChar_isDigit a0 h0, digitChar_isDigit a1 h1, digitChar_isDigit a2 h2,
      digitChar_isDigit a3 h3, digitChar_isDigit a4 h4, digitChar_isDigit a5 h5,
      digitChar_isDigit a6 h6, digitChar_isDigit a7 h7,
      digitChar_isDigit _ (by omega), by simp⟩
  rw [get_extent_len9_quad _ (by simp) hs
    (by exact quadChar_ne5 q1x hq1x q1y hq1y)
    (by exact quadChar_mem q1x hq1x q1y hq1y)]
  simp only [get_level4_extent, hs]
  rw [if_pos ⟨by simp, by exact quadChar_mem q1x hq1x q1y hq1y⟩]
  rw [show ([Nat.digitChar a0, Nat.digitChar a1, Nat.digitChar a2, Nat.digitChar a3,
      Nat.digitChar a4, Nat.digitChar a5, Nat.digitChar a6, Nat.digitChar a7,
      Nat.digitChar (1 + 2 * q1y + q1x)].getD 8 '0') = Nat.digitChar (1 + 2 * q1y + q1x)
      from rfl]
  rw [ifMemBit _ q1y hq1y (quadChar_mem34 q1x hq1x q1y hq1y),
    ifMemBit _ q1x hq1x (quadChar_mem24 q1x hq1x q1y hq1y)]
  norm_num [dAt, List.getD_cons_zero, List.getD_cons_succ, List.take_succ_cons,
    List.drop_succ_cons, digitsToNat_two a0 h0 a1 h1, digitsToNat_two a2 h2 a3 h3,
    digitVal_digitChar a4 h4, digitVal_digitChar a5 h5, digitVal_digitChar a6 h6,
    digitVal_digitChar a7 h7]

theorem extent5_eval (a0 a1 a2 a3 a4 a5 a6 a7 q1x q1y q2x q2y : ℕ)
    (h0 : a0 < 10) (h1 : a1 < 10) (h2 : a2 < 10) (h3 : a3 < 10) (h4 : a4 < 10)
    (h5 : a5 < 10) (h6 : a6 < 10) (h7 : a7 < 10)
    (hq1x : q1x ≤ 1) (hq1y : q1y ≤ 1) (hq2x : q2x ≤ 1) (hq2y : q2y ≤ 1) :
    get_extent [Nat.digitChar a0, Nat.digitChar a1, Nat.digitChar a2, Nat.digitChar a3,
        Nat.digitChar a4, Nat.digitChar a5, Nat.digitChar a6, Nat.digitChar a7,
        Nat.digitChar (1 + 2 * q1y + q1x), Nat.digitChar (1 + 2 * q2y + q2x)] =
      some ⟨((10 * a2 + a3 : ℕ) : ℚ) + 100 + (a5 : ℚ) / 8 + (a7 : ℚ) / 80
              + (1 / 160) * (q1x : ℚ) + (1 / 320) * (q2x : ℚ),
            ((10 * a0 + a1 : ℕ) : ℚ) / 1.5 + (a4 : ℚ) / 12 + (a6 : ℚ) / 120
              + (1 / 240) * (q1y : ℚ) + (1 / 480) * (q2y : ℚ),
            (((10 * a2 + a3 : ℕ) : ℚ) + 100 + (a5 : ℚ) / 8 + (a7 : ℚ) / 80
              + (1 / 160) * (q1x : ℚ) + (1 / 320) * (q2x : ℚ)) + 1 / 320,
            (((10 * a0 + a1 : ℕ) : ℚ) / 1.5 + (a4 : ℚ) / 12 + (a6 : ℚ) / 120
              + (1 / 240) * (q1y : ℚ) + (1 / 480) * (q2y : ℚ)) + 1 / 480⟩ := by
  have hs : stripNonDigits [Nat.digitChar a0, Nat.digitChar a1, Nat.digitChar a2,
      Nat.digitChar a3, Nat.digitChar a4, Nat.digitChar a5, Nat.digitChar a6,
      Nat.digitChar a7, Nat.digitChar (1 + 2 * q1y + q1x),
      Nat.digitChar (1 + 2 * q2y + q2x)] = [Nat.digitChar a0, Nat.digitChar a1,
      Nat.digitChar a2, Nat.digitChar a3, Nat.digitChar a4, Nat.digitChar a5,
      Nat.digitChar a6, Nat.digitChar a7, Nat.digitChar (1 + 2 * q1y + q1x),
      Nat.digitChar (1 + 2 * q2y + q2x)] := by
    refine strip_digits _ ?_
    simp only [List.forall_mem_cons]
    exact ⟨digitChar_isDigit a0 h0, digitChar_isDigit a1 h1, digitChar_isDigit a2 h2,
      digitChar_isDigit a3 h3, digitChar_isDigit a4 h4, digitChar_isDigit a5 h5,
      digitChar_isDigit a6 h6, digitChar_isDigit a7 h7,
      digitChar_isDigit _ (by omega), digitChar_isDigit _ (by omega), by simp⟩
  rw [get_extent_len10 _ (by simp) hs]
  simp only [get_level5_extent, hs]
  rw [if_pos ⟨by simp, by exact quadChar_mem q1x hq1x q1y hq1y,
    by exact quadChar_mem q2x hq2x q2y hq2y⟩]
  rw [show ([Nat.digitChar a0, Nat.digitChar a1, Nat.digitChar a2, Nat.digitChar a3,
      Nat.digitChar a4, Nat.digitChar a5, Nat.digitChar a6, Nat.digitChar a7,
      Nat.digitChar (1 + 2 * q1y + q1x), Nat.digitChar (1 + 2 * q2y + q2x)].getD 8 '0')
      = Nat.digitChar (1 + 2 * q1y + q1x) from rfl]
  rw [show ([Nat.digitChar a0, Nat.digitChar a1, Nat.digitChar a2, Nat.digitChar a3,
      Nat.digitChar a4, Nat.digitChar a5, Nat.digitChar a6, Nat.digitChar a7,
      Nat.digitChar (1 + 2 * q1y + q1x), Nat.digitChar (1 + 2 * q2y + q2x)].getD 9 '0')
      = Nat.digitChar (1 + 2 * q2y + q2x) from rfl]
  rw [ifMemBit _ q1y hq1y (quadChar_mem34 q1x hq1x q1y hq1y),
    ifMemBit _ q1x hq1x (quadChar_mem24 q1x hq1x q1y hq1y),
    ifMemBit _ q2y hq2y (quadChar_mem34 q2x hq2x q2y hq2y),
    ifMemBit _ q2x hq2x (quadChar_mem24 q2x hq2x q2y hq2y)]
  norm_num [dAt, List.getD_cons_zero, List.getD_cons_succ, List.take_succ_cons,
    List.drop_succ_cons, digitsToNat_two a0 h0 a1 h1, digitsToNat_two a2 h2 a3 h3,
    digitVal_digitChar a4 h4, digitVal_digitChar a5 h5, digitVal_digitChar a6 h6,
    digitVal_digitChar a7 h7]

theorem extent6_eval (a0 a1 a2 a3 a4 a5 a6 a7 q1x q1y q2x q2y q3x q3y : ℕ)
    (h0 : a0 < 10) (h1 : a1 < 10) (h2 : a2 < 10) (h3 : a3 < 10) (h4 : a4 < 10)
    (h5 : a5 < 10) (h6 : a6 < 10) (h7 : a7 < 10)
    (hq1x : q1x ≤ 1) (hq1y : q1y ≤ 1) (hq2x : q2x ≤ 1) (hq2y : q2y ≤ 1)
    (hq3x : q3x ≤ 1) (hq3y : q3y ≤ 1) :
    get_extent [Nat.digitChar a0, Nat.digitChar a1, Nat.digitChar a2, Nat.digitChar a3,
        Nat.digitChar a4, Nat.digitChar a5, Nat.digitChar a6, Nat.digitChar a7,
        Nat.digitChar (1 + 2 * q1y + q1x), Nat.digitChar (1 + 2 * q2y + q2x),
        Nat.digitChar (1 + 2 * q3y + q3x)] =
      some ⟨((10 * a2 + a3 : ℕ) : ℚ) + 100 + (a5 : ℚ) / 8 + (a7 : ℚ) / 80
              + (1 / 160) * (q1x : ℚ) + (1 / 320) * (q2x : ℚ) + (1 / 640) * (q3x : ℚ),
            ((10 * a0 + a1 : ℕ) : ℚ) / 1.5 + (a4 : ℚ) / 12 + (a6 : ℚ) / 120
              + (1 / 240) * (q1y : ℚ) + (1 / 480) * (q2y : ℚ) + (1 / 960) * (q3y : ℚ),
            (((10 * a2 + a3 : ℕ) : ℚ) + 100 + (a5 : ℚ) / 8 + (a7 : ℚ) / 80
              + (1 / 160) * (q1x : ℚ) + (1 / 320) * (q2x : ℚ) + (1 / 640) * (q3x : ℚ)) + 1 / 640,
            (((10 * a0 + a1 : ℕ) : ℚ) / 1.5 + (a4 : ℚ) / 12 + (a6 : ℚ) / 120
              + (1 / 240) * (q1y : ℚ) + (1 / 480) * (q2y : ℚ) + (1 / 960) * (q3y : ℚ)) + 1 / 960⟩ := by
  have hs : stripNonDigits [Nat.digitChar a0, Nat.digitChar a1, Nat.digitChar a2,
      Nat.digitChar a3, Nat.digitChar a4, Nat.digitChar a5, Nat.digitChar a6,
      Nat.digitChar a7, Nat.digitChar (1 + 2 * q1y + q1x),
      Nat.digitChar (1 + 2 * q2y + q2x), Nat.digitChar (1 + 2 * q3y + q3x)] =
      [Nat.digitChar a0, Nat.digitChar a1, Nat.digitChar a2, Nat.digitChar a3,
      Nat.digitChar a4, Nat.digitChar a5, Nat.digitChar a6, Nat.digitChar a7,
      Nat.digitChar (1 + 2 * q1y + q1x), Nat.digitChar (1 + 2 * q2y + q2x),
      Nat.digitChar (1 + 2 * q3y + q3x)] := by
    refine strip_digits _ ?_
    simp only [List.forall_mem_cons]
    exact ⟨digitChar_isDigit a0 h0, digitChar_isDigit a1 h1, digitChar_isDigit a2 h2,
      digitChar_isDigit a3 h3, digitChar_isDigit a4 h4, digitChar_isDigit a5 h5,
      digitChar_isDigit a6 h6, digitChar_isDigit a7 h7,
      digitChar_isDigit _ (by omega), digitChar_isDigit _ (by omega),
      digitChar_isDigit _ (by omega), by simp⟩
  rw [get_extent_len11 _ (by simp) hs]
  simp only [get_level6_extent, hs]
  rw [if_pos ⟨by simp, by exact quadChar_mem q1x hq1x q1y hq1y,
    by exact quadChar_mem q2x hq2x q2y hq2y, by exact quadChar_mem q3x hq3x q3y hq3y⟩]
  rw [show ([Nat.digitChar a0, Nat.digitChar a1, Nat.digitChar a2, Nat.digitChar a3,
      Nat.digitChar a4, Nat.digitChar a5, Nat.digitChar a6, Nat.digitChar a7,
      Nat.digitChar (1 + 2 * q1y + q1x), Nat.digitChar (1 + 2 * q2y + q2x),
      Nat.digitChar (1 + 2 * q3y + q3x)].getD 8 '0')
      = Nat.digitChar (1 + 2 * q1y + q1x) from rfl]
  rw [show ([Nat.digitChar a0, Nat.digitChar a1, Nat.digitChar a2, Nat.digitChar a3,
      Nat.digitChar a4, Nat.digitChar a5, Nat.digitChar a6, Nat.digitChar a7,
      Nat.digitChar (1 + 2 * q1y + q1x), Nat.digitChar (1 + 2 * q2y + q2x),
      Nat.digitChar (1 + 2 * q3y + q3x)].getD 9 '0')
      = Nat.digitChar (1 + 2 * q2y + q2x) from rfl]
  rw [show ([Nat.digitChar a0, Nat.digitChar a1, Nat.digitChar a2, Nat.digitChar a3,
      Nat.digitChar a4, Nat.digitChar a5, Nat.digitChar a6, Nat.digitChar a7,
      Nat.digitChar (1 + 2 * q1y + q1x), Nat.digitChar (1 + 2 * q2y + q2x),
      Nat.digitChar (1 + 2 * q3y + q3x)].getD 10 '0')
      = Nat.digitChar (1 + 2 * q3y + q3x) from rfl]
  rw [ifMemBit _ q1y hq1y (quadChar_mem34 q1x hq1x q1y hq1y),
    ifMemBit _ q1x hq1x (quadChar_mem24 q1x hq1x q1y hq1y),
    ifMemBit _ q2y hq2y (quadChar_mem34 q2x hq2x q2y hq2y),
    ifMemBit _ q2x hq2x (quadChar_mem24 q2x hq2x q2y hq2y),
    ifMemBit _ q3y hq3y (quadChar_mem34 q3x hq3x q3y hq3y),
    ifMemBit _ q3x hq3x (quadChar_mem24 q3x hq3x q3y hq3y)]
  norm_num [dAt, List.getD_cons_zero, List.getD_cons_succ, List.take_succ_cons,
    List.drop_succ_cons, digitsToNat_two a0 h0 a1 h1, digitsToNat_two a2 h2 a3 h3,
    digitVal_digitChar a4 h4, digitVal_digitChar a5 h5, digitVal_digitChar a6 h6,
    digitVal_digitChar a7 h7]

/-- Characterization of the 11 digits produced by get_level6_meshcode:
whenever the two fixed-point expansions of lat·1.5 and lon−100 are given
by the chain of digit/remainder equations below, the code is exactly the
corresponding digit string. -/
theorem level6_spec (lon lat : ℚ)
    (n0 n1 n2 n3 n4 n5 x1 y1 x2 y2 x3 y3 : ℕ)
    (ry0 ry1 ry2 ry3 ry4 ry5 rx0 rx1 rx2 rx3 rx4 rx5 : ℚ)
    (hn0 : n0 < 100) (hn1 : n1 < 100) (hn2 : n2 < 10) (hn3 : n3 < 10)
    (hn4 : n4 < 10) (hn5 : n5 < 10)
    (hx1 : x1 ≤ 1) (hy1 : y1 ≤ 1) (hx2 : x2 ≤ 1) (hy2 : y2 ≤ 1)
    (hx3 : x3 ≤ 1) (hy3 : y3 ≤ 1)
    (ey0 : lat * 1.5 = (n0 : ℚ) + ry0) (uy0 : unitIv ry0)
    (ey1 : ry0 * 8 = (n2 : ℚ) + ry1) (uy1 : unitIv ry1)
    (ey2 : ry1 * 10 = (n4 : ℚ) + ry2) (uy2 : unitIv ry2)
    (ey3 : ry2 * 2 = (y1 : ℚ) + ry3) (uy3 : unitIv ry3)
    (ey4 : ry3 * 2 = (y2 : ℚ) + ry4) (uy4 : unitIv ry4)
    (ey5 : ry4 * 2 = (y3 : ℚ) + ry5) (uy5 : unitIv ry5)
    (ex0 : lon - 100 = (n1 : ℚ) + rx0) (ux0 : unitIv rx0)
    (ex1 : rx0 * 8 = (n3 : ℚ) + rx1) (ux1 : unitIv rx1)
    (ex2 : rx1 * 10 = (n5 : ℚ) + rx2) (ux2 : unitIv rx2)
    (ex3 : rx2 * 2 = (x1 : ℚ) + rx3) (ux3 : unitIv rx3)
    (ex4 : rx3 * 2 = (x2 : ℚ) + rx4) (ux4 : unitIv rx4)
    (ex5 : rx4 * 2 = (x3 : ℚ) + rx5) (ux5 : unitIv rx5) :
    get_level6_meshcode lon lat =
      [Nat.digitChar (n0 / 10), Nat.digitChar (n0 % 10),
       Nat.digitChar (n1 / 10), Nat.digitChar (n1 % 10),
       Nat.digitChar n2, Nat.digitChar n3, Nat.digitChar n4, Nat.digitChar n5,
       Nat.digitChar (1 + 2 * y1 + x1), Nat.digitChar (1 + 2 * y2 + x2),
       Nat.digitChar (1 + 2 * y3 + x3)] := by
  obtain ⟨uy0l, uy0r⟩ := uy0
  obtain ⟨uy1l, uy1r⟩ := uy1
  obtain ⟨uy2l, uy2r⟩ := uy2
  obtain ⟨uy3l, uy3r⟩ := uy3
  obtain ⟨uy4l, uy4r⟩ := uy4
  obtain ⟨uy5l, uy5r⟩ := uy5
  obtain ⟨ux0l, ux0r⟩ := ux0
  obtain ⟨ux1l, ux1r⟩ := ux1
  obtain ⟨ux2l, ux2r⟩ := ux2
  obtain ⟨ux3l, ux3r⟩ := ux3
  obtain ⟨ux4l, ux4r⟩ := ux4
  obtain ⟨ux5l, ux5r⟩ := ux5
  have ey3' : ry2 * 2 = (y1 : ℚ) + ry3 := ey3
  have ex3' : rx2 * 2 = (x1 : ℚ) + rx3 := ex3
  have ey4' : ry3 * 2 = (y2 : ℚ) + ry4 := ey4
  have ex4' : rx3 * 2 = (x2 : ℚ) + rx4 := ex4
  have ey5' : ry4 * 2 = (y3 : ℚ) + ry5 := ey5
  have ex5' : rx4 * 2 = (x3 : ℚ) + rx5 := ex5
  simp only [get_level6_meshcode]
  rw [floorRem_eq _ _ _ ey0 uy0l uy0r]
  dsimp only
  rw [floorRem_eq _ _ _ ex0 ux0l ux0r]
  dsimp only
  rw [floorRem_eq _ _ _ ey1 uy1l uy1r]
  dsimp only
  rw [floorRem_eq _ _ _ ex1 ux1l ux1r]
  dsimp only
  rw [floorRem_eq _ _ _ ey2 uy2l uy2r]
  dsimp only
  rw [floorRem_eq _ _ _ ex2 ux2l ux2r]
  dsimp only
  rw [quadAdjust_eq _ _ x1 y1 rx3 ry3 hx1 hy1 ex3' ey3' ux3l ux3r uy3l uy3r]
  dsimp only
  rw [quadAdjust_eq _ _ x2 y2 rx4 ry4 hx2 hy2 ex4' ey4' ux4l ux4r uy4l uy4r]
  dsimp only
  rw [quadAdjust_eq _ _ x3 y3 rx5 ry5 hx3 hy3 ex5' ey5' ux5l ux5r uy5l uy5r]
  dsimp only
  rw [pyFmt_two n0 hn0, pyFmt_two n1 hn1, pyFmt_one n2 hn2, pyFmt_one n3 hn3,
    pyFmt_one n4 hn4, pyFmt_one n5 hn5,
    pyFmt_one (1 + 2 * y1 + x1) (by omega), pyFmt_one (1 + 2 * y2 + x2) (by omega),
    pyFmt_one (1 + 2 * y3 + x3) (by omega)]
  simp

theorem floorStage (q : ℚ) (m : ℕ) (h0 : 0 ≤ q) (h1 : q < (m : ℚ)) :
    ∃ (n : ℕ) (r : ℚ), n < m ∧ q = (n : ℚ) + r ∧ unitIv r := by
  have hf0 : (0 : ℤ) ≤ ⌊q⌋ := Int.floor_nonneg.mpr h0
  have hfm : ⌊q⌋ < (m : ℤ) := by
    rw [Int.floor_lt]; exact_mod_cast h1
  have hq : ((⌊q⌋.toNat : ℕ) : ℚ) = (⌊q⌋ : ℚ) := by
    exact_mod_cast congrArg (fun z : ℤ => (z : ℚ)) (Int.toNat_of_nonneg hf0)
  refine ⟨⌊q⌋.toNat, q - (⌊q⌋ : ℚ), by omega, ?_, ?_⟩
  · rw [hq]; ring
  · exact ⟨by linarith [Int.floor_le q], by linarith [Int.lt_floor_add_one q]⟩

theorem bitStage (q : ℚ) (h0 : 0 ≤ q) (h1 : q < 1) :
    ∃ (b : ℕ) (r : ℚ), b ≤ 1 ∧ q * 2 = (b : ℚ) + r ∧ unitIv r := by
  by_cases hb : (1 : ℚ) ≤ q * 2
  · exact ⟨1, q * 2 - 1, le_refl 1, by push_cast; ring, ⟨by linarith, by linarith⟩⟩
  · exact ⟨0, q * 2, by norm_num, by push_cast; ring, ⟨by linarith, by linarith⟩⟩

set_option maxHeartbeats 1600000 in
/-- C3 (amended): for every point of the domain on which the codec digits
are well defined (0 ≤ lat < 200/3 so that lat·1.5 has at most two integer
digits, 100 ≤ lon < 200 likewise for lon−100), the extent obtained from
get_extent applied to the encoded code of each of the six levels contains
the point under the half-open rule. -/
theorem c3_encode_extent_contains (lon lat : ℚ) (hlon0 : 100 ≤ lon) (hlon1 : lon < 200)
    (hlat0 : 0 ≤ lat) (hlat1 : lat < 200 / 3) :
    (∃ e, get_extent (get_level1_meshcode lon lat) = some e ∧ containsPt e lon lat) ∧
    (∃ e, get_extent (get_level2_meshcode lon lat) = some e ∧ containsPt e lon lat) ∧
    (∃ e, get_extent (get_level3_meshcode lon lat) = some e ∧ containsPt e lon lat) ∧
    (∃ e, get_extent (get_level4_meshcode lon lat) = some e ∧ containsPt e lon lat) ∧
    (∃ e, get_extent (get_level5_meshcode lon lat) = some e ∧ containsPt e lon lat) ∧
    (∃ e, get_extent (get_level6_meshcode lon lat) = some e ∧ containsPt e lon lat) := by
  obtain ⟨n0, ry0, hn0, ey0, uy0⟩ :=
    floorStage (lat * 1.5) 100 (by positivity) (by push_cast; linarith)
  obtain ⟨n1, rx0, hn1, ex0, ux0⟩ :=
    floorStage (lon - 100) 100 (by linarith) (by push_cast; linarith)
  obtain ⟨n2, ry1, hn2, ey1, uy1⟩ :=
    floorStage (ry0 * 8) 8 (by nlinarith [uy0.1]) (by push_cast; nlinarith [uy0.2])
  obtain ⟨n3, rx1, hn3, ex1, ux1⟩ :=
    floorStage (rx0 * 8) 8 (by nlinarith [ux0.1]) (by push_cast; nlinarith [ux0.2])
  obtain ⟨n4, ry2, hn4, ey2, uy2⟩ :=
    floorStage (ry1 * 10) 10 (by nlinarith [uy1.1]) (by push_cast; nlinarith [uy1.2])
  obtain ⟨n5, rx2, hn5, ex2, ux2⟩ :=
    floorStage (rx1 * 10) 10 (by nlinarith [ux1.1]) (by push_cast; nlinarith [ux1.2])
  obtain ⟨y1, ry3, hy1, ey3, uy3⟩ := bitStage ry2 uy2.1 uy2.2
  obtain ⟨x1, rx3, hx1, ex3, ux3⟩ := bitStage rx2 ux2.1 ux2.2
  obtain ⟨y2, ry4, hy2, ey4, uy4⟩ := bitStage ry3 uy3.1 uy3.2
  obtain ⟨x2, rx4, hx2, ex4, ux4⟩ := bitStage rx3 ux3.1 ux3.2
  obtain ⟨y3, ry5, hy3, ey5, uy5⟩ := bitStage ry4 uy4.1 uy4.2
  obtain ⟨x3, rx5, hx3, ex5, ux5⟩ := bitStage rx4 ux4.1 ux4.2
  have hcode := level6_spec lon lat n0 n1 n2 n3 n4 n5 x1 y1 x2 y2 x3 y3
    ry0 ry1 ry2 ry3 ry4 ry5 rx0 rx1 rx2 rx3 rx4 rx5
    hn0 hn1 (by omega) (by omega) hn4 hn5 hx1 hy1 hx2 hy2 hx3 hy3
    ey0 uy0 ey1 uy1 ey2 uy2 ey3 uy3 ey4 uy4 ey5 uy5
    ex0 ux0 ex1 ux1 ex2 ux2 ex3 ux3 ex4 ux4 ex5 ux5
  rw [show (1.5 : ℚ) = 3 / 2 from by norm_num] at ey0
  have hn0' : 10 * (n0 / 10) + n0 % 10 = n0 := by omega
  have hn1' : 10 * (n1 / 10) + n1 % 10 = n1 := by omega
  obtain ⟨uy0l, uy0r⟩ := uy0
  obtain ⟨uy1l, uy1r⟩ := uy1
  obtain ⟨uy2l, uy2r⟩ := uy2
  obtain ⟨uy3l, uy3r⟩ := uy3
  obtain ⟨uy4l, uy4r⟩ := uy4
  obtain ⟨uy5l, uy5r⟩ := uy5
  obtain ⟨ux0l, ux0r⟩ := ux0
  obtain ⟨ux1l, ux1r⟩ := ux1
  obtain ⟨ux2l, ux2r⟩ := ux2
  obtain ⟨ux3l, ux3r⟩ := ux3
  obtain ⟨ux4l, ux4r⟩ := ux4
  obtain ⟨ux5l, ux5r⟩ := ux5
  refine ⟨?_, ?_, ?_, ?_, ?_, ?_⟩
  · rw [get_level1_meshcode, hcode]
    simp only [List.take_succ_cons, List.take_zero]
    rw [extent1_eval _ _ _ _ (by omega) (by omega) (by omega) (by omega)]
    rw [hn0', hn1', show (1.5 : ℚ) = 3 / 2 from by norm_num]
    refine ⟨_, rfl, ?_, ?_, ?_, ?_⟩ <;> dsimp only <;> linarith
  · rw [get_level2_meshcode, hcode]
    simp only [List.take_succ_cons, List.take_zero]
    rw [extent2_eval _ _ _ _ _ _ (by omega) (by omega) (by omega) (by omega)
      (by omega) (by omega)]
    rw [hn0', hn1', show (1.5 : ℚ) = 3 / 2 from by norm_num]
    refine ⟨_, rfl, ?_, ?_, ?_, ?_⟩ <;> dsimp only <;> linarith
  · rw [get_level3_meshcode, hcode]
    simp only [List.take_succ_cons, List.take_zero]
    rw [extent3_eval _ _ _ _ _ _ _ _ (by omega) (by omega) (by omega) (by omega)
      (by omega) (by omega) (by omega) (by omega)]
    rw [hn0', hn1', show (1.5 : ℚ) = 3 / 2 from by norm_num]
    refine ⟨_, rfl, ?_, ?_, ?_, ?_⟩ <;> dsimp only <;> linarith
  · rw [get_level4_meshcode, hcode]
    simp only [List.take_succ_cons, List.take_zero]
    rw [extent4_eval _ _ _ _ _ _ _ _ x1 y1 (by omega) (by omega) (by omega) (by omega)
      (by omega) (by omega) (by omega) (by omega) hx1 hy1]
    rw [hn0', hn1', show (1.5 : ℚ) = 3 / 2 from by norm_num]
    refine ⟨_, rfl, ?_, ?_, ?_, ?_⟩ <;> dsimp only <;> linarith
  · rw [get_level5_meshcode, hcode]
    simp only [List.take_succ_cons, List.take_zero]
    rw [extent5_eval _ _ _ _ _ _ _ _ x1 y1 x2 y2 (by omega) (by omega) (by omega)
      (by omega) (by omega) (by omega) (by omega) (by omega) hx1 hy1 hx2 hy2]
    rw [hn0', hn1', show (1.5 : ℚ) = 3 / 2 from by norm_num]
    refine ⟨_, rfl, ?_, ?_, ?_, ?_⟩ <;> dsimp only <;> linarith
  · rw [hcode]
    rw [extent6_eval _ _ _ _ _ _ _ _ x1 y1 x2 y2 x3 y3 (by omega) (by omega) (by omega)
      (by omega) (by omega) (by omega) (by omega) (by omega) hx1 hy1 hx2 hy2 hx3 hy3]
    rw [hn0', hn1', show (1.5 : ℚ) = 3 / 2 from by norm_num]
    refine ⟨_, rfl, ?_, ?_, ?_, ?_⟩ <;> dsimp only <;> linarith

/-- C3 (counterexample): the claim quantifies over every geographic point,
but at (lon, lat) = (0, 0) the codec formats int(lon−100) = −100 into the
code, producing "00-1000000111"; the level-1 prefix "00-1" strips to the
3-digit string "001", so get_extent raises InvalidMeshCode instead of
returning an extent containing the point. -/
theorem c3_point_outside_domain_fails :
    get_level6_meshcode 0 0 = "00-1000000111".data ∧
    ¬ ∃ e, get_extent (get_level1_meshcode 0 0) = some e ∧ containsPt e 0 0 := by
  have f1 : floorRem ((0 : ℚ) * 1.5) = (0, 0) := by
    norm_num [floorRem, pyInt]
  have f2 : floorRem ((0 : ℚ) - 100) = (-100, 0) := by
    norm_num [floorRem, pyInt]
  have f3 : floorRem ((0 : ℚ) * 8) = (0, 0) := by
    norm_num [floorRem, pyInt]
  have f4 : floorRem ((0 : ℚ) * 10) = (0, 0) := by
    norm_num [floorRem, pyInt]
  have q1 : quadAdjust ((0 : ℚ) * 2) ((0 : ℚ) * 2) = (1, 0, 0) := by
    norm_num [quadAdjust]
  have hcode : get_level6_meshcode 0 0 = "00-1000000111".data := by
    simp only [get_level6_meshcode]
    rw [f1]
    dsimp only
    rw [f2]
    dsimp only
    rw [f3]
    dsimp only
    rw [f4]
    dsimp only
    rw [q1]
    dsimp only
    rw [q1]
    dsimp only
    rw [q1]
    dsimp only
    decide
  refine ⟨hcode, ?_⟩
  rintro ⟨e, he, -⟩
  rw [get_level1_meshcode, hcode] at he
  rw [show ("00-1000000111".data.take 4) = "00-1".data from rfl] at he
  rw [show get_extent "00-1".data = none from rfl] at he
  exact Option.noConfusion he

/-- C3 (witness): the amended containment theorem applied at the Shinjuku
fixture point of the source self-tests. -/
theorem c3_encode_extent_contains_witness :
    (100 : ℚ) ≤ 139.70346069 ∧ (139.70346069 : ℚ) < 200 ∧
    (0 : ℚ) ≤ 35.69388962 ∧ (35.69388962 : ℚ) < 200 / 3 ∧
    ((∃ e, get_extent (get_level1_meshcode 139.70346069 35.69388962) = some e ∧
        containsPt e 139.70346069 35.69388962) ∧
     (∃ e, get_extent (get_level2_meshcode 139.70346069 35.69388962) = some e ∧
        containsPt e 139.70346069 35.69388962) ∧
     (∃ e, get_extent (get_level3_meshcode 139.70346069 35.69388962) = some e ∧
        containsPt e 139.70346069 35.69388962) ∧
     (∃ e, get_extent (get_level4_meshcode 139.70346069 35.69388962) = some e ∧
        containsPt e 139.70346069 35.69388962) ∧
     (∃ e, get_extent (get_level5_meshcode 139.70346069 35.69388962) = some e ∧
        containsPt e 139.70346069 35.69388962) ∧
     (∃ e, get_extent (get_level6_meshcode 139.70346069 35.69388962) = some e ∧
        containsPt e 139.70346069 35.69388962)) :=
  ⟨by norm_num, by norm_num, by norm_num, by norm_num,
   c3_encode_extent_contains 139.70346069 35.69388962 (by norm_num) (by norm_num)
     (by norm_num) (by norm_num)⟩

theorem fixture_level6 :
    get_level6_meshcode 139.70346069 35.69388962 = "53394536141".data := by
  have h := level6_spec 139.70346069 35.69388962 53 39 4 5 3 6 0 0 1 1 0 0
    0.54083443 0.32667544 0.2667544 0.5335088 0.0670176 0.1340352
    0.70346069 0.62768552 0.2768552 0.5537104 0.1074208 0.2148416
    (by norm_num) (by norm_num) (by norm_num) (by norm_num) (by norm_num) (by norm_num)
    (by norm_num) (by norm_num) (by norm_num) (by norm_num) (by norm_num) (by norm_num)
    (by norm_num) ⟨by norm_num, by norm_num⟩ (by norm_num) ⟨by norm_num, by norm_num⟩
    (by norm_num) ⟨by norm_num, by norm_num⟩ (by norm_num) ⟨by norm_num, by norm_num⟩
    (by norm_num) ⟨by norm_num, by norm_num⟩ (by norm_num) ⟨by norm_num, by norm_num⟩
    (by norm_num) ⟨by norm_num, by norm_num⟩ (by norm_num) ⟨by norm_num, by norm_num⟩
    (by norm_num) ⟨by norm_num, by norm_num⟩ (by norm_num) ⟨by norm_num, by norm_num⟩
    (by norm_num) ⟨by norm_num, by norm_num⟩ (by norm_num) ⟨by norm_num, by norm_num⟩
  rw [h]
  decide

theorem fixture_2km :
    get_2km_meshcode 139.70346069 35.69388962 = "533945265".data := by
  simp only [get_2km_meshcode, fixture_level6]
  decide

theorem fixture_5km :
    get_5km_meshcode 139.70346069 35.69388962 = "5339452".data := by
  simp only [get_5km_meshcode, fixture_level6]
  decide

/-- C4 (counterexample): the claimed Integrated2km fixture value
"533945365" is wrong; the code (and the source's own self-test, which
expects "5339-4526-5") produces "533945265" at the fixture point. -/
theorem c4_fixture_2km_code_differs :
    get_2km_meshcode 139.70346069 35.69388962 ≠ "533945365".data := by
  rw [fixture_2km]
  decide

/-- C4 (amended): at the fixture point (lat 35.69388962, lon 139.70346069)
the Level6 code is "53394536141", the Integrated2km code is "533945265",
and the Integrated5km code is "5339452". -/
theorem c4_fixture_codes :
    get_level6_meshcode 139.70346069 35.69388962 = "53394536141".data ∧
    get_2km_meshcode 139.70346069 35.69388962 = "533945265".data ∧
    get_5km_meshcode 139.70346069 35.69388962 = "5339452".data :=
  ⟨fixture_level6, fixture_2km, fixture_5km⟩

/-- C1: the 9-digit code "533945265" (trailing digit "5", produced by
get_2km_meshcode at the fixture point) is sent by get_extent's length-9
branch to get_5km_extent, which rejects every code of length ≠ 7, so
get_extent raises InvalidMeshCode; get_2km_extent itself accepts the code
and returns the Integrated2km extent of widths 1/40 and 1/60, which is
what the claim (and the dispatch comment) expects. -/
theorem c1_2km_dispatch_raises :
    get_2km_meshcode 139.70346069 35.69388962 = "533945265".data ∧
    get_extent "533945265".data = none ∧
    get_2km_extent "533945265".data =
      some ⟨1397 / 10, 2141 / 60, 1397 / 10 + 1 / 40, 2141 / 60 + 1 / 60⟩ := by
  refine ⟨fixture_2km, by rfl, ?_⟩
  rw [show get_2km_extent "533945265".data =
    some ⟨(39 : ℚ) + 100 + 5 / 8 + 6 / 80, (53 : ℚ) / 1.5 + 4 / 12 + 2 / 120,
          ((39 : ℚ) + 100 + 5 / 8 + 6 / 80) + 1 / 40,
          ((53 : ℚ) / 1.5 + 4 / 12 + 2 / 120) + 1 / 60⟩ from rfl]
  norm_num

/-- C2: the 7-digit code "5339452" (produced by get_5km_meshcode at the
fixture point) is sent by get_extent's length-7 branch to get_2km_extent,
which rejects every code of length ≠ 9, so get_extent raises
InvalidMeshCode; get_5km_extent itself accepts the code and returns the
Integrated5km extent of widths 1/16 and 1/24, which contains the point
under the half-open rule, as the claim expects. -/
theorem c2_5km_dispatch_raises :
    get_5km_meshcode 139.70346069 35.69388962 = "5339452".data ∧
    get_extent "5339452".data = none ∧
    get_5km_extent "5339452".data =
      some ⟨2235 / 16, 107 / 3, 2235 / 16 + 1 / 16, 107 / 3 + 1 / 24⟩ ∧
    containsPt ⟨2235 / 16, 107 / 3, 2235 / 16 + 1 / 16, 107 / 3 + 1 / 24⟩
      139.70346069 35.69388962 := by
  refine ⟨fixture_5km, by rfl, ?_, ?_⟩
  · rw [show get_5km_extent "5339452".data =
      some ⟨(39 : ℚ) + 100 + 5 / 8 + 1 / 16, (53 : ℚ) / 1.5 + 4 / 12 + 0 / 24,
            ((39 : ℚ) + 100 + 5 / 8 + 1 / 16) + 1 / 16,
            ((53 : ℚ) / 1.5 + 4 / 12 + 0 / 24) + 1 / 24⟩ from rfl]
    norm_num
  · refine ⟨by norm_num, by norm_num, by norm_num, by norm_num⟩

/-- C10: get_extent strips every non-digit character before dispatching,
so its value on any string equals its value on the digit-only form; in
particular the hyphen-separated "5339-45-36" is accepted and yields the
same (Level3) extent as "53394536". -/
theorem c10_get_extent_strips_nondigits :
    (∀ code : List Char, get_extent code = get_extent (stripNonDigits code)) ∧
    get_extent "5339-45-36".data = get_extent "53394536".data ∧
    (get_extent "53394536".data).isSome = true := by
  have hidem : ∀ l : List Char, stripNonDigits (stripNonDigits l) = stripNonDigits l := by
    intro l
    simp [stripNonDigits, List.filter_filter]
  refine ⟨?_, ?_, rfl⟩
  · intro code
    simp only [get_extent, hidem]
  · have hsame : stripNonDigits "5339-45-36".data = stripNonDigits "53394536".data := by
      decide
    simp only [get_extent, hsame]

/-! ### Scan-loop lemmas for the stream parser -/

theorem scanFor_nil {α : Type} (f : List Char → Option α) :
    scanFor f ([] : List (List Char)) = (none, []) := rfl

theorem scanFor_none {α : Type} (f : List Char → Option α) (l : List (List Char))
    (h : ∀ ln ∈ l, f ln = none) : scanFor f l = (none, []) := by
  induction l with
  | nil => rfl
  | cons a t ih =>
    simp only [scanFor, h a (List.mem_cons_self a t)]
    exact ih fun ln hln => h ln (List.mem_cons_of_mem a hln)

theorem scanFor_rest_sublist {α : Type} (f : List Char → Option α) (l : List (List Char)) :
    (scanFor f l).2.Sublist l := by
  induction l with
  | nil => simp [scanFor]
  | cons a t ih =>
    simp only [scanFor]
    cases h : f a with
    | some v => exact List.sublist_cons_self a t
    | none => exact ih.trans (List.sublist_cons_self a t)

theorem parseTail_high_missing (st2 : EState) (l : List (List Char))
    (h : ∀ ln ∈ l, searchHigh ln = none) :
    parseTail st2 l = (st2, Except.error PyError.unboundLocal) := by
  simp only [parseTail, scanFor_none _ _ h, scanFor_nil, readData, startXY]

/-- C6 (counterexample): a stream carrying the mesh-id, corner and
grid-high markers but neither the data-start nor the start-point marker
parses to completion (Except.ok) with empty samples and the zero default
start point, instead of failing with a parse error as the claim
requires. -/
theorem c6_stream_without_data_markers_completes :
    (parseBody clearState linesNoData).2 = Except.ok () ∧
    (parseBody clearState linesNoData).1.mesh = some "53394536".data ∧
    (parseBody clearState linesNoData).1.data = some [] ∧
    (parseBody clearState linesNoData).1.start_pos = 0 ∧
    (parseBody clearState linesNoData).1.gridsize = some (6, 8) :=
  ⟨rfl, rfl, rfl, rfl, rfl⟩

/-- C6 (amended): if the mesh-id, lower-corner, upper-corner or grid-high
marker never matches any line of the stream, the parse ends in an error
(the Python code dies on an unbound local or a failed conversion) rather
than completing; missing data-start or start-point markers, by contrast,
complete normally with empty samples and the default start point. -/
theorem c6_missing_marker_errors (st : EState) (lines : List (List Char))
    (h : (∀ ln ∈ lines, searchMesh ln = none) ∨ (∀ ln ∈ lines, searchLower ln = none) ∨
         (∀ ln ∈ lines, searchUpper ln = none) ∨ (∀ ln ∈ lines, searchHigh ln = none)) :
    ∃ e, (parseBody st lines).2 = Except.error e := by
  rcases h with hm | hlo | hup | hhi
  · simp only [parseBody, scanFor_none _ _ hm, scanFor_nil, floatPair]
    exact ⟨PyError.unboundLocal, rfl⟩
  · rcases hs1 : scanFor searchMesh lines with ⟨m1, l1⟩
    have hsub : l1.Sublist lines := by
      have hx := scanFor_rest_sublist searchMesh lines
      rw [hs1] at hx
      exact hx
    have hl1 : ∀ ln ∈ l1, searchLower ln = none := fun ln hln => hlo ln (hsub.subset hln)
    simp only [parseBody, hs1, scanFor_none _ _ hl1, scanFor_nil, floatPair]
    exact ⟨PyError.unboundLocal, rfl⟩
  · rcases hs1 : scanFor searchMesh lines with ⟨m1, l1⟩
    have hsub1 : l1.Sublist lines := by
      have hx := scanFor_rest_sublist searchMesh lines
      rw [hs1] at hx
      exact hx
    rcases hs2 : scanFor searchLower l1 with ⟨m2, l2⟩
    have hsub2 : l2.Sublist lines := by
      have hx := scanFor_rest_sublist searchLower l1
      rw [hs2] at hx
      exact hx.trans hsub1
    have hl2 : ∀ ln ∈ l2, searchUpper ln = none := fun ln hln => hup ln (hsub2.subset hln)
    simp only [parseBody, hs1, hs2, scanFor_none _ _ hl2, scanFor_nil]
    cases hfp : floatPair m2 with
    | error e => exact ⟨e, rfl⟩
    | ok lowerOpt =>
      simp only [floatPair]
      cases lowerOpt with
      | none => exact ⟨PyError.unboundLocal, rfl⟩
      | some lc => exact ⟨PyError.unboundLocal, rfl⟩
  · rcases hs1 : scanFor searchMesh lines with ⟨m1, l1⟩
    have hsub1 : l1.Sublist lines := by
      have hx := scanFor_rest_sublist searchMesh lines
      rw [hs1] at hx
      exact hx
    rcases hs2 : scanFor searchLower l1 with ⟨m2, l2⟩
    have hsub2 : l2.Sublist lines := by
      have hx := scanFor_rest_sublist searchLower l1
      rw [hs2] at hx
      exact hx.trans hsub1
    rcases hs3 : scanFor searchUpper l2 with ⟨m3, l3⟩
    have hsub3 : l3.Sublist lines := by
      have hx := scanFor_rest_sublist searchUpper l2
      rw [hs3] at hx
      exact hx.trans hsub2
    have hl3 : ∀ ln ∈ l3, searchHigh ln = none := fun ln hln => hhi ln (hsub3.subset hln)
    simp only [parseBody, hs1, hs2, hs3]
    cases hfp : floatPair m2 with
    | error e => exact ⟨e, rfl⟩
    | ok lowerOpt =>
      cases hfp2 : floatPair m3 with
      | error e => exact ⟨e, rfl⟩
      | ok upperOpt =>
        cases lowerOpt with
        | none => exact ⟨PyError.unboundLocal, rfl⟩
        | some lc =>
          cases upperOpt with
          | none => exact ⟨PyError.unboundLocal, rfl⟩
          | some uc =>
            dsimp only
            rw [parseTail_high_missing _ _ hl3]
            exact ⟨PyError.unboundLocal, rfl⟩

/-- C6 (witness): the amended theorem applied to the empty stream, where
no marker at all ever matches. -/
theorem c6_missing_marker_errors_witness :
    ∃ e, (parseBody clearState ([] : List (List Char))).2 = Except.error e :=
  c6_missing_marker_errors clearState [] (Or.inl fun ln hln =>
    absurd hln (List.not_mem_nil ln))

/-- C7 (counterexample): with a resident tile loaded, a reload whose
member stream carries only a mesh-id line fails partway (the lower-corner
marker is never found), and the state observed after the failure is NOT
the state from before the reload: the mesh field already holds the new
mesh id. -/
theorem c7_failed_reload_mutates_state :
    (read_xml_file envMeshOnly stResident "53394536".data).2 =
      Except.error PyError.unboundLocal ∧
    (read_xml_file envMeshOnly stResident "53394536".data).1 ≠ stResident := by
  refine ⟨rfl, fun h => ?_⟩
  have h2 := congrArg EState.mesh h
  revert h2
  decide

/-- C7 (amended): a reload that fails partway through parsing leaves a
mixture of old and new fields, not the pre-reload state: when the member
stream contains a mesh-id match but no lower-corner match, read_xml_file
raises, and afterwards the mesh field holds the new value while
start_pos, data, extent and gridsize keep their previous values. -/
theorem c7_failed_reload_partial_update (env : Env) (st : EState) (mc : List Char)
    (lines : List (List Char)) (v : List Char) (rest : List (List Char))
    (ha : env.hasArchive (levelTwoCode mc) = true)
    (he : env.entry (levelThreeCode mc) = some lines)
    (hm : scanFor searchMesh lines = (some v, rest))
    (hlo : ∀ ln ∈ lines, searchLower ln = none) :
    read_xml_file env st mc = ({ st with mesh := some v }, Except.error PyError.unboundLocal) := by
  have hsub : rest.Sublist lines := by
    have hx := scanFor_rest_sublist searchMesh lines
    rw [hm] at hx
    exact hx
  have hlr : ∀ ln ∈ rest, searchLower ln = none := fun ln hln => hlo ln (hsub.subset hln)
  simp only [read_xml_file, ha, he, if_true]
  simp only [parseBody, hm, scanFor_none _ _ hlr, scanFor_nil, floatPair]

/-- C7 (witness): the amended partial-update theorem at the concrete
resident state and single-mesh-line environment. -/
theorem c7_failed_reload_partial_update_witness :
    envMeshOnly.hasArchive (levelTwoCode "53394536".data) = true ∧
    envMeshOnly.entry (levelThreeCode "53394536".data) =
      some ["<mesh>53394536</mesh>".data] ∧
    read_xml_file envMeshOnly stResident "53394536".data =
      ({ stResident with mesh := some "53394536".data },
        Except.error PyError.unboundLocal) :=
  ⟨rfl, rfl,
    c7_failed_reload_partial_update envMeshOnly stResident "53394536".data
      ["<mesh>53394536</mesh>".data] "53394536".data [] rfl rfl (by decide)
      (by decide)⟩

/-- C5: re_startpoint's first group is written ([\d\.].+) instead of
([\d\.]+), so it demands at least two characters before the whitespace; a
single-digit x never matches, the scan loop exhausts the stream, and the
recorded start offset is the default 0 = 0·cols + 0 instead of
y·cols + x (here 10·3 + 5 = 35).  A two-digit x matches as the siblings
do. -/
theorem c5_startpoint_single_digit_lost :
    searchStartpoint "<gml:startPoint>5 10</gml:startPoint>".data = none ∧
    searchStartpoint "<gml:startPoint>10 5</gml:startPoint>".data
      = some ("10".data, "5".data) ∧
    (parseBody clearState linesSingleDigitStart).2 = Except.ok () ∧
    (parseBody clearState linesSingleDigitStart).1.gridsize = some (3, 4) ∧
    (parseBody clearState linesSingleDigitStart).1.start_pos = 0 ∧
    (10 : ℤ) * 3 + 5 ≠ (parseBody clearState linesSingleDigitStart).1.start_pos := by
  refine ⟨rfl, rfl, rfl, rfl, rfl, ?_⟩
  decide

/-- C8: when the reload path is taken (no resident extent, or the point
outside it), the archive exists, and the archive holds no member for the
point's Level3 cell, get_elevation clears the instance to the empty state
and returns the (nan, no-data) pair without raising. -/
theorem c8_no_entry_clears_and_no_data (env : Env) (st : EState) (lon lat : ℚ)
    (hre : needsReload st lon lat = true)
    (ha : env.hasArchive (levelTwoCode (get_level3_meshcode lon lat)) = true)
    (hn : env.entry (levelThreeCode (get_level3_meshcode lon lat)) = none) :
    get_elevation env st lon lat = (clearState, Except.ok (none, noDataLabel)) := by
  simp only [get_elevation, hre, if_true, read_xml_file, ha, hn]
  simp [lookupResident, clearState]

/-- C8 (witness): the no-entry theorem at the empty state and an
environment whose archive has no matching member. -/
theorem c8_no_entry_clears_and_no_data_witness :
    needsReload clearState 0 0 = true ∧
    envNoEntry.hasArchive (levelTwoCode (get_level3_meshcode 0 0)) = true ∧
    envNoEntry.entry (levelThreeCode (get_level3_meshcode 0 0)) = none ∧
    get_elevation envNoEntry clearState 0 0 = (clearState, Except.ok (none, noDataLabel)) :=
  ⟨rfl, rfl, rfl, c8_no_entry_clears_and_no_data envNoEntry clearState 0 0 rfl rfl rfl⟩

/-- C9: when the reload path is taken and no archive matches the point's
Level2 pattern, get_elevation raises DataNotAvailable carrying the
expected hyphenated level-2 code (which names the expected archive
FG-GML-code-DEM*.zip), and in particular does not return the no-data
sentinel. -/
theorem c9_missing_archive_raises (env : Env) (st : EState) (lon lat : ℚ)
    (hre : needsReload st lon lat = true)
    (ha : env.hasArchive (levelTwoCode (get_level3_meshcode lon lat)) = false) :
    get_elevation env st lon lat =
      (st, Except.error (PyError.dataNotAvailable
        (levelTwoCode (get_level3_meshcode lon lat)))) := by
  simp only [get_elevation, hre, if_true, read_xml_file, ha]
  simp

/-- C9 (witness): the missing-archive theorem at the empty state and the
archiveless environment. -/
theorem c9_missing_archive_raises_witness :
    needsReload clearState 0 0 = true ∧
    envNoArchive.hasArchive (levelTwoCode (get_level3_meshcode 0 0)) = false ∧
    get_elevation envNoArchive clearState 0 0 =
      (clearState, Except.error (PyError.dataNotAvailable
        (levelTwoCode (get_level3_meshcode 0 0)))) :=
  ⟨rfl, rfl, c9_missing_archive_raises envNoArchive clearState 0 0 rfl rfl⟩

end PyGsiElev
